import Mathlib

/-!
Shallow embedding of `py_setup_datadir` from `src/postal/_capi.c` (pypostal).

The C function receives one Python object. A `str` is encoded to bytes with
`PyUnicode_AsEncodedString(arg, "utf-8", "strict")`; a `bytes` object is used
as is; anything else (or a string that fails strict UTF-8 encoding) yields a
`TypeError`. With the resulting NUL-terminated byte buffer the function then
evaluates, with C `&&` short-circuit,

  libpostal_setup_datadir(datadir) && libpostal_setup() &&
  libpostal_setup_parser_datadir(datadir) && libpostal_setup_parser() &&
  libpostal_setup_language_classifier_datadir(datadir)

and returns `True` on success, or raises a `RuntimeError` whose message is
produced by `PyErr_Format(..., "libpostal setup sequence failed for path: %s.
Check data file integrity and setup function order.", datadir)`.

The external library is modelled by an oracle `env : LibCall → Bool` giving
each call's success value; the embedding additionally records the trace of
calls actually invoked, so that the short-circuit behaviour is observable.
Every `char *` consumer (the libpostal entry points and the `%s` format) sees
the bytes of the buffer up to the first NUL byte, which `cString` models.
-/

namespace PyPostal

/-- A Python object passed as the single positional argument of
`setup_datadir`.  A `str` is a sequence of Unicode code points (which may
include lone surrogates), a `bytes` is a sequence of byte values, and
`other` stands for any object of any other type. -/
inductive PyObj : Type
  | str (codepoints : List Nat)
  | bytes (data : List Nat)
  | other
deriving DecidableEq

/-- Strict UTF-8 encoding of a single code point, as performed per character
by `PyUnicode_AsEncodedString(arg, "utf-8", "strict")`: surrogate code points
(U+D800–U+DFFF) and values beyond U+10FFFF are rejected. -/
def utf8EncodeCodepoint (c : Nat) : Option (List Nat) :=
  if c < 0x80 then some [c]
  else if c < 0x800 then some [0xC0 + c / 64, 0x80 + c % 64]
  else if c < 0xD800 then some [0xE0 + c / 4096, 0x80 + c / 64 % 64, 0x80 + c % 64]
  else if c < 0xE000 then none
  else if c < 0x10000 then some [0xE0 + c / 4096, 0x80 + c / 64 % 64, 0x80 + c % 64]
  else if c < 0x110000 then
    some [0xF0 + c / 262144, 0x80 + c / 4096 % 64, 0x80 + c / 64 % 64, 0x80 + c % 64]
  else none

/-- Strict UTF-8 encoding of a whole `str`
(`PyUnicode_AsEncodedString(arg, "utf-8", "strict")`): `none` models the
encoder raising, which leaves `py_bytes == NULL` in the C code. -/
def encodeUtf8Strict : List Nat → Option (List Nat)
  | [] => some []
  | c :: cs => do
      let b ← utf8EncodeCodepoint c
      let bs ← encodeUtf8Strict cs
      pure (b ++ bs)

/-- The C-string view of a byte buffer: what any `char *` consumer
(`libpostal_*` entry points, the `%s` conversion of `PyErr_Format`) reads
from `PyBytes_AS_STRING`, namely the bytes up to the first NUL byte. -/
def cString (bs : List Nat) : List Nat := bs.takeWhile (fun b => b ≠ 0)

/-- One call into the wrapped libpostal library, with the path argument it
receives where the entry point takes one. -/
inductive LibCall : Type
  | libpostal_setup_datadir (path : List Nat)
  | libpostal_setup
  | libpostal_setup_parser_datadir (path : List Nat)
  | libpostal_setup_parser_models
  | libpostal_setup_language_classifier_datadir (path : List Nat)
deriving DecidableEq

/-- Which libpostal entry point a call is, with the path argument erased. -/
inductive CallKind : Type
  | setupDatadir
  | setup
  | parserDatadir
  | parser
  | languageClassifierDatadir
deriving DecidableEq

/-- The entry point of a call, forgetting its path argument. -/
def LibCall.kind : LibCall → CallKind
  | .libpostal_setup_datadir _ => .setupDatadir
  | .libpostal_setup => .setup
  | .libpostal_setup_parser_datadir _ => .parserDatadir
  | .libpostal_setup_parser_models => .parser
  | .libpostal_setup_language_classifier_datadir _ => .languageClassifierDatadir

/-- The path argument a call carries, if its entry point takes one. -/
def LibCall.pathArg : LibCall → Option (List Nat)
  | .libpostal_setup_datadir p => some p
  | .libpostal_setup => none
  | .libpostal_setup_parser_datadir p => some p
  | .libpostal_setup_parser_models => none
  | .libpostal_setup_language_classifier_datadir p => some p

/-- The result of the operation as seen from Python: `Py_RETURN_TRUE`, a
raised `TypeError` (message as text), or a raised `RuntimeError` (message as
the bytes produced by `PyErr_Format`, since it embeds the raw path bytes). -/
inductive PyResult : Type
  | ok (value : Bool)
  | typeError (msg : String)
  | runtimeError (msg : List Nat)
deriving DecidableEq

/-- Conversion of the argument object to the `datadir` byte buffer, exactly
as in the C code: a `str` goes through strict UTF-8 encoding (failure leaves
`datadir == NULL`), a `bytes` is taken unchanged, anything else leaves
`datadir == NULL`. -/
def toDatadir : PyObj → Option (List Nat)
  | .str cps => encodeUtf8Strict cps
  | .bytes bs => some bs
  | .other => none

/-- The fixed sequence of libpostal calls the `&&` chain evaluates, in source
order.  Each path-taking entry point receives the C-string view of the
`datadir` buffer. -/
def callSeq (datadir : List Nat) : List LibCall :=
  [.libpostal_setup_datadir (cString datadir),
   .libpostal_setup,
   .libpostal_setup_parser_datadir (cString datadir),
   .libpostal_setup_parser_models,
   .libpostal_setup_language_classifier_datadir (cString datadir)]

/-- The entry-point order of the call sequence, independent of the path. -/
def kindSeq : List CallKind :=
  [.setupDatadir, .setup, .parserDatadir, .parser, .languageClassifierDatadir]

/-- C `&&` short-circuit evaluation of a sequence of calls against the oracle
`env`, returning the aggregate boolean and the trace of calls invoked. -/
def runCalls {α : Type} (env : α → Bool) : List α → Bool × List α
  | [] => (true, [])
  | c :: cs =>
      if env c then
        let r := runCalls env cs
        (r.1, c :: r.2)
      else (false, [c])

/-- Byte values of an ASCII string literal, as it appears in the compiled C
string constant. -/
def strBytes (s : String) : List Nat := s.toList.map Char.toNat

/-- The bytes of the `PyErr_Format` message before the `%s` conversion. -/
def msgHead : List Nat := strBytes "libpostal setup sequence failed for path: "

/-- The bytes of the `PyErr_Format` message after the `%s` conversion. -/
def msgTail : List Nat := strBytes ". Check data file integrity and setup function order."

/-- The `RuntimeError` message produced on setup failure: the format string
with `%s` replaced by the C-string view of the `datadir` buffer. -/
def errMsg (datadir : List Nat) : List Nat := msgHead ++ cString datadir ++ msgTail

/-- Shallow embedding of `py_setup_datadir`: the Python-visible result, paired
with the trace of external libpostal calls invoked.

Caveat on the failure path: before `PyErr_Format` reads `datadir`, the C code
has already executed `Py_XDECREF(py_bytes)`, which for a `str` input frees the
freshly encoded bytes object, so there the `%s` bytes come from freed memory
and are not well defined; only for a `bytes` input, whose buffer the caller
still owns, does the source guarantee the message bytes.  The model keeps the
buffer intact in both cases, so theorems about the content of the
`runtimeError` message must quantify only over `bytes` inputs. -/
def py_setup_datadir (env : LibCall → Bool) (arg : PyObj) : PyResult × List LibCall :=
  match toDatadir arg with
  | none => (.typeError "Path argument must be a string or bytes", [])
  | some datadir =>
      let r := runCalls env (callSeq datadir)
      if r.1 then (.ok true, r.2)
      else (.runtimeError (errMsg datadir), r.2)

/-- An oracle under which every libpostal call succeeds. -/
def envAllTrue : LibCall → Bool := fun _ => true

/-- An oracle under which every libpostal call fails. -/
def envAllFalse : LibCall → Bool := fun _ => false

/-- An oracle under which only `libpostal_setup` (the second call of the
sequence) fails. -/
def envSetupFails : LibCall → Bool := fun c =>
  match c with
  | .libpostal_setup => false
  | _ => true

theorem runCalls_all_true {α : Type} (env : α → Bool) (l : List α)
    (h : ∀ c ∈ l, env c = true) : runCalls env l = (true, l) := by
  induction l with
  | nil => rfl
  | cons c cs ih =>
      simp only [runCalls, h c (List.mem_cons_self c cs),
        ih (fun x hx => h x (List.mem_cons_of_mem c hx)), if_true]

theorem runCalls_fail_at {α : Type} (env : α → Bool) (l₁ : List α) (c : α) (l₂ : List α)
    (h1 : ∀ x ∈ l₁, env x = true) (hc : env c = false) :
    runCalls env (l₁ ++ c :: l₂) = (false, l₁ ++ [c]) := by
  induction l₁ with
  | nil => simp [runCalls, hc]
  | cons a as ih =>
      have ha : env a = true := h1 a (List.mem_cons_self a as)
      have ih' := ih (fun x hx => h1 x (List.mem_cons_of_mem a hx))
      simp [runCalls, ha, ih']

theorem runCalls_eq_true {α : Type} (env : α → Bool) (l : List α)
    (h : (runCalls env l).1 = true) : runCalls env l = (true, l) := by
  induction l with
  | nil => rfl
  | cons c cs ih =>
      by_cases henv : env c = true
      · have hr : runCalls env (c :: cs) = ((runCalls env cs).1, c :: (runCalls env cs).2) := by
          simp [runCalls, henv]
        rw [hr] at h ⊢
        rw [ih h]
      · simp only [Bool.not_eq_true] at henv
        simp [runCalls, henv] at h

theorem runCalls_trace_take {α : Type} (env : α → Bool) (l : List α) :
    ∃ n, (runCalls env l).2 = l.take n := by
  induction l with
  | nil => exact ⟨0, rfl⟩
  | cons c cs ih =>
      by_cases henv : env c = true
      · obtain ⟨n, hn⟩ := ih
        refine ⟨n + 1, ?_⟩
        simp [runCalls, henv, hn]
      · simp only [Bool.not_eq_true] at henv
        exact ⟨1, by simp [runCalls, henv]⟩

theorem runCalls_map {α β : Type} (f : α → β) (env : β → Bool) (l : List α) :
    runCalls env (l.map f) =
      ((runCalls (fun c => env (f c)) l).1, ((runCalls (fun c => env (f c)) l).2).map f) := by
  induction l with
  | nil => rfl
  | cons c cs ih =>
      by_cases henv : env (f c) = true
      · simp [runCalls, henv, ih]
      · simp only [Bool.not_eq_true] at henv
        simp [runCalls, henv]

theorem callSeq_nodup (d : List Nat) : (callSeq d).Nodup := by
  simp [callSeq]

theorem callSeq_map_kind (d : List Nat) : (callSeq d).map LibCall.kind = kindSeq := rfl

theorem py_setup_datadir_trace (env : LibCall → Bool) (arg : PyObj) (d : List Nat)
    (hd : toDatadir arg = some d) :
    (py_setup_datadir env arg).2 = (runCalls env (callSeq d)).2 := by
  simp only [py_setup_datadir, hd]
  split <;> rfl

theorem py_setup_datadir_runtimeError (env : LibCall → Bool) (arg : PyObj) (d : List Nat)
    (hd : toDatadir arg = some d) (m : List Nat)
    (hm : (py_setup_datadir env arg).1 = .runtimeError m) :
    m = errMsg d := by
  by_cases hr : (runCalls env (callSeq d)).1 = true
  · simp [py_setup_datadir, hd, hr] at hm
  · simp only [Bool.not_eq_true] at hr
    simp [py_setup_datadir, hd, hr] at hm
    exact hm.symm

theorem cString_eq_self (d : List Nat) (h : (0:Nat) ∉ d) : cString d = d := by
  rw [cString, List.takeWhile_eq_self_iff]
  intro x hx
  have hx0 : x ≠ 0 := fun h0 => h (h0 ▸ hx)
  simp [hx0]

theorem cString_append (bs : List Nat) (h : (0:Nat) ∈ bs) :
    ∃ t, bs = cString bs ++ 0 :: t := by
  induction bs with
  | nil => cases h
  | cons a as ih =>
      by_cases ha : a = 0
      · subst ha
        exact ⟨as, by simp [cString]⟩
      · have h' : (0:Nat) ∈ as := by
          rcases List.mem_cons.1 h with h0 | h0
          · exact absurd h0.symm ha
          · exact h0
        obtain ⟨t, ht⟩ := ih h'
        refine ⟨t, ?_⟩
        have hc : cString (a :: as) = a :: cString as := by
          simp [cString, List.takeWhile_cons, ha]
        rw [hc, List.cons_append, ← ht]

/-- C1: for every valid (string or bytes) path input, if one call of the
libpostal setup sequence fails while all calls before it succeed, then
`py_setup_datadir` invokes exactly the calls up to and including the failing
one — every call before it was invoked, none of the calls after it is
invoked — and raises the setup-failure `RuntimeError` instead of
returning. -/
theorem C1_short_circuit (env : LibCall → Bool) (arg : PyObj) (d : List Nat)
    (l₁ : List LibCall) (c : LibCall) (l₂ : List LibCall)
    (hd : toDatadir arg = some d) (hsplit : callSeq d = l₁ ++ c :: l₂)
    (hbefore : ∀ x ∈ l₁, env x = true) (hfail : env c = false) :
    py_setup_datadir env arg = (.runtimeError (errMsg d), l₁ ++ [c]) ∧
    ∀ x ∈ l₂, x ∉ l₁ ++ [c] := by
  have hrun : runCalls env (callSeq d) = (false, l₁ ++ [c]) := by
    rw [hsplit]; exact runCalls_fail_at env l₁ c l₂ hbefore hfail
  constructor
  · simp [py_setup_datadir, hd, hrun]
  · have hnd := callSeq_nodup d
    rw [hsplit, List.nodup_append] at hnd
    intro x hx hmem
    rcases List.mem_append.1 hmem with h1 | h2
    · exact hnd.2.2 h1 (List.mem_cons_of_mem c hx)
    · have hxc : x = c := by simpa using h2
      subst hxc
      exact (List.nodup_cons.1 hnd.2.1).1 hx

/-- C1 witness: with an oracle failing exactly at `libpostal_setup`, the
call on the byte path `[97]` invokes only the first two calls and raises the
setup-failure error. -/
theorem C1_short_circuit_witness :
    py_setup_datadir envSetupFails (.bytes [97]) =
      (.runtimeError (errMsg [97]),
       [.libpostal_setup_datadir [97], .libpostal_setup]) ∧
    ∀ x ∈ ([.libpostal_setup_parser_datadir [97], .libpostal_setup_parser_models,
            .libpostal_setup_language_classifier_datadir [97]] : List LibCall),
      x ∉ ([.libpostal_setup_datadir [97], .libpostal_setup] : List LibCall) :=
  C1_short_circuit envSetupFails (.bytes [97]) [97]
    [.libpostal_setup_datadir [97]] .libpostal_setup
    [.libpostal_setup_parser_datadir [97], .libpostal_setup_parser_models,
     .libpostal_setup_language_classifier_datadir [97]]
    rfl (by decide) (by decide) rfl

/-- C2: for every valid path input on which every external call succeeds,
`py_setup_datadir` returns `True`, the trace is exactly the five-call
sequence, and each required call is invoked exactly once (no retries). -/
theorem C2_all_success (env : LibCall → Bool) (arg : PyObj) (d : List Nat)
    (hd : toDatadir arg = some d) (hall : ∀ c ∈ callSeq d, env c = true) :
    py_setup_datadir env arg = (.ok true, callSeq d) ∧
    ∀ c ∈ callSeq d, ((py_setup_datadir env arg).2).count c = 1 := by
  have hrun := runCalls_all_true env (callSeq d) hall
  have hres : py_setup_datadir env arg = (.ok true, callSeq d) := by
    simp [py_setup_datadir, hd, hrun]
  refine ⟨hres, fun c hc => ?_⟩
  rw [hres]
  exact List.count_eq_one_of_mem (callSeq_nodup d) hc

/-- C2 witness: with the all-success oracle on the byte path `[97]`. -/
theorem C2_all_success_witness :
    py_setup_datadir envAllTrue (.bytes [97]) = (.ok true, callSeq [97]) ∧
    ∀ c ∈ callSeq [97], ((py_setup_datadir envAllTrue (.bytes [97])).2).count c = 1 :=
  C2_all_success envAllTrue (.bytes [97]) [97] rfl (by decide)

/-- C3: for every input that is neither a string nor a byte sequence,
`py_setup_datadir` raises the invalid-argument `TypeError` immediately and
invokes no external library call at all. -/
theorem C3_type_error (env : LibCall → Bool) :
    py_setup_datadir env .other =
      (.typeError "Path argument must be a string or bytes", []) := rfl

/-- C4: whenever `py_setup_datadir` reports success on a valid path input,
its trace contains the datadir-configuration call of each of the three
subsystems (base, parser, language classifier), each with the given path,
together with the two model-loading calls. -/
theorem C4_all_configured (env : LibCall → Bool) (arg : PyObj) (d : List Nat)
    (hd : toDatadir arg = some d)
    (hok : (py_setup_datadir env arg).1 = .ok true) :
    LibCall.libpostal_setup_datadir (cString d) ∈ (py_setup_datadir env arg).2 ∧
    LibCall.libpostal_setup ∈ (py_setup_datadir env arg).2 ∧
    LibCall.libpostal_setup_parser_datadir (cString d) ∈ (py_setup_datadir env arg).2 ∧
    LibCall.libpostal_setup_parser_models ∈ (py_setup_datadir env arg).2 ∧
    LibCall.libpostal_setup_language_classifier_datadir (cString d) ∈
      (py_setup_datadir env arg).2 := by
  have h1 : (runCalls env (callSeq d)).1 = true := by
    by_contra hfalse
    simp only [Bool.not_eq_true] at hfalse
    simp [py_setup_datadir, hd, hfalse] at hok
  have htrace : (py_setup_datadir env arg).2 = callSeq d := by
    rw [py_setup_datadir_trace env arg d hd, runCalls_eq_true env (callSeq d) h1]
  rw [htrace]
  simp [callSeq]

/-- C4 witness: with the all-success oracle on the byte path `[97]`. -/
theorem C4_all_configured_witness :
    LibCall.libpostal_setup_datadir (cString [97]) ∈
      (py_setup_datadir envAllTrue (.bytes [97])).2 ∧
    LibCall.libpostal_setup ∈ (py_setup_datadir envAllTrue (.bytes [97])).2 ∧
    LibCall.libpostal_setup_parser_datadir (cString [97]) ∈
      (py_setup_datadir envAllTrue (.bytes [97])).2 ∧
    LibCall.libpostal_setup_parser_models ∈ (py_setup_datadir envAllTrue (.bytes [97])).2 ∧
    LibCall.libpostal_setup_language_classifier_datadir (cString [97]) ∈
      (py_setup_datadir envAllTrue (.bytes [97])).2 :=
  C4_all_configured envAllTrue (.bytes [97]) [97] rfl (by decide)

/-- C5 counterexample: on the byte path `[97, 0, 98]` (a valid bytes input)
with every call failing, `py_setup_datadir` raises the setup-failure error,
but the message does not contain the passed path byte-for-byte: `%s` stops
at the interior NUL byte. -/
theorem C5_counterexample :
    (py_setup_datadir envAllFalse (.bytes [97, 0, 98])).1 =
      .runtimeError (errMsg [97, 0, 98]) ∧
    ¬ ∃ l r, errMsg [97, 0, 98] = l ++ [97, 0, 98] ++ r := by
  refine ⟨by decide, ?_⟩
  rintro ⟨l, r, hlr⟩
  have h0 : (0:Nat) ∈ errMsg [97, 0, 98] := by
    rw [hlr]; simp
  have h0' : (0:Nat) ∉ errMsg [97, 0, 98] := by decide
  exact h0' h0

/-- C5 (amended): for every bytes path input containing no NUL byte, if the
setup sequence fails then the `RuntimeError` message contains the path
byte-for-byte as a contiguous run.  String inputs carry no such guarantee in
the source: `Py_XDECREF(py_bytes)` frees the encoded buffer before
`PyErr_Format` reads `datadir`, so for a `str` the message bytes are read
from freed memory; and a bytes path with an interior NUL is truncated at the
NUL (the counterexample above). -/
theorem C5_amended_msg_contains_path (env : LibCall → Bool) (bs : List Nat)
    (hnz : (0:Nat) ∉ bs) (m : List Nat)
    (hm : (py_setup_datadir env (.bytes bs)).1 = .runtimeError m) :
    ∃ l r, m = l ++ bs ++ r := by
  have hme := py_setup_datadir_runtimeError env (.bytes bs) bs rfl m hm
  refine ⟨msgHead, msgTail, ?_⟩
  rw [hme, errMsg, cString_eq_self bs hnz]

/-- C5 (amended) witness: the all-fail oracle on the byte path `[97]`. -/
theorem C5_amended_witness :
    ∃ l r, errMsg [97] = l ++ [97] ++ r :=
  C5_amended_msg_contains_path envAllFalse [97] (by decide) (errMsg [97]) (by decide)

/-- C6: calling `py_setup_datadir` with the byte sequence equal to the UTF-8
encoding of a string produces exactly the same sequence of external calls as
calling it with the string itself. -/
theorem C6_encoding_equivalence (env : LibCall → Bool) (cps bs : List Nat)
    (h : encodeUtf8Strict cps = some bs) :
    (py_setup_datadir env (.str cps)).2 = (py_setup_datadir env (.bytes bs)).2 := by
  rw [py_setup_datadir_trace env (.str cps) bs h,
      py_setup_datadir_trace env (.bytes bs) bs rfl]

/-- C6 witness: the string `"a"` (code point 97) and its UTF-8 bytes. -/
theorem C6_encoding_equivalence_witness :
    (py_setup_datadir envAllTrue (.str [97])).2 =
      (py_setup_datadir envAllTrue (.bytes [97])).2 :=
  C6_encoding_equivalence envAllTrue [97] [97] (by decide)

/-- C7: for every oracle and every input, `py_setup_datadir` either raises
(`TypeError` or `RuntimeError`) or returns the boolean `True`; it never
returns `False` or any other non-error value to signal failure. -/
theorem C7_raise_or_true (env : LibCall → Bool) (arg : PyObj) :
    (py_setup_datadir env arg).1 = .ok true ∨
    (∃ m, (py_setup_datadir env arg).1 = .typeError m) ∨
    (∃ m, (py_setup_datadir env arg).1 = .runtimeError m) := by
  cases htd : toDatadir arg with
  | none =>
      refine Or.inr (Or.inl ⟨"Path argument must be a string or bytes", ?_⟩)
      simp [py_setup_datadir, htd]
  | some d =>
      by_cases hr : (runCalls env (callSeq d)).1 = true
      · exact Or.inl (by simp [py_setup_datadir, htd, hr])
      · simp only [Bool.not_eq_true] at hr
        exact Or.inr (Or.inr ⟨errMsg d, by simp [py_setup_datadir, htd, hr]⟩)

/-- C8: for every valid path input, the entry-point order of the invoked
calls is a prefix of the fixed five-entry-point sequence (base datadir, base
setup, parser datadir, parser setup, language-classifier datadir), and when
the oracle's answers depend only on the entry point, the sequence of entry
points attempted is identical for any two valid path inputs. -/
theorem C8_fixed_order (envK : CallKind → Bool) (arg₁ arg₂ : PyObj) (d₁ d₂ : List Nat)
    (h₁ : toDatadir arg₁ = some d₁) (h₂ : toDatadir arg₂ = some d₂) :
    (∃ n, ((py_setup_datadir (fun c => envK c.kind) arg₁).2).map LibCall.kind =
       kindSeq.take n) ∧
    ((py_setup_datadir (fun c => envK c.kind) arg₁).2).map LibCall.kind =
      ((py_setup_datadir (fun c => envK c.kind) arg₂).2).map LibCall.kind := by
  have key : ∀ (arg : PyObj) (d : List Nat), toDatadir arg = some d →
      ((py_setup_datadir (fun c => envK c.kind) arg).2).map LibCall.kind =
        (runCalls envK kindSeq).2 := by
    intro arg d hd
    rw [py_setup_datadir_trace _ arg d hd]
    have hmap := runCalls_map LibCall.kind envK (callSeq d)
    rw [callSeq_map_kind] at hmap
    rw [hmap]
  constructor
  · obtain ⟨n, hn⟩ := runCalls_trace_take envK kindSeq
    exact ⟨n, by rw [key arg₁ d₁ h₁, hn]⟩
  · rw [key arg₁ d₁ h₁, key arg₂ d₂ h₂]

/-- A path-independent oracle under which every entry point succeeds. -/
def envKindTrue : CallKind → Bool := fun _ => true

/-- C8 witness: a bytes path and a different string path under the same
path-independent oracle. -/
theorem C8_fixed_order_witness :
    (∃ n, ((py_setup_datadir (fun c => envKindTrue c.kind) (.bytes [97])).2).map
       LibCall.kind = kindSeq.take n) ∧
    ((py_setup_datadir (fun c => envKindTrue c.kind) (.bytes [97])).2).map LibCall.kind =
      ((py_setup_datadir (fun c => envKindTrue c.kind) (.str [98])).2).map LibCall.kind :=
  C8_fixed_order envKindTrue (.bytes [97]) (.str [98]) [97] [98] rfl (by decide)

/-- C9: a string input that strict UTF-8 encoding rejects (e.g. one holding
a lone surrogate code point) yields the same invalid-argument `TypeError` as
a wrong-typed argument, and no external call is made. -/
theorem C9_unencodable_str (env : LibCall → Bool) (cps : List Nat)
    (h : encodeUtf8Strict cps = none) :
    py_setup_datadir env (.str cps) =
      (.typeError "Path argument must be a string or bytes", []) := by
  simp [py_setup_datadir, toDatadir, h]

/-- C9 witness: the lone surrogate U+D800 (code point 55296). -/
theorem C9_unencodable_str_witness :
    py_setup_datadir envAllTrue (.str [55296]) =
      (.typeError "Path argument must be a string or bytes", []) :=
  C9_unencodable_str envAllTrue [55296] (by decide)

/-- C10: for a bytes input containing an interior NUL byte, every
path-taking call invoked receives exactly the prefix of the bytes before the
first NUL, any setup-failure message embeds exactly that prefix, and the
input decomposes as that prefix, the NUL, and the silently dropped
remainder. -/
theorem C10_nul_truncation (env : LibCall → Bool) (bs : List Nat)
    (h : (0:Nat) ∈ bs) :
    (∀ c ∈ (py_setup_datadir env (.bytes bs)).2, ∀ p, c.pathArg = some p →
       p = bs.takeWhile (fun b => b ≠ 0)) ∧
    (∀ m, (py_setup_datadir env (.bytes bs)).1 = .runtimeError m →
       m = msgHead ++ bs.takeWhile (fun b => b ≠ 0) ++ msgTail) ∧
    (∃ t, bs = bs.takeWhile (fun b => b ≠ 0) ++ 0 :: t) := by
  refine ⟨?_, ?_, cString_append bs h⟩
  · intro c hc p hp
    rw [py_setup_datadir_trace env (.bytes bs) bs rfl] at hc
    obtain ⟨n, hn⟩ := runCalls_trace_take env (callSeq bs)
    rw [hn] at hc
    have hc' : c ∈ callSeq bs := (callSeq bs).take_subset n hc
    simp only [callSeq, List.mem_cons, List.not_mem_nil, or_false] at hc'
    rcases hc' with h1 | h1 | h1 | h1 | h1 <;> subst h1 <;>
      simp only [LibCall.pathArg, Option.some.injEq, reduceCtorEq] at hp <;>
      exact hp.symm
  · intro m hm
    have hme := py_setup_datadir_runtimeError env (.bytes bs) bs rfl m hm
    rw [hme]
    rfl

/-- C10 witness: the all-fail oracle on the byte path `[97, 0, 98]`. -/
theorem C10_nul_truncation_witness :
    (∀ c ∈ (py_setup_datadir envAllFalse (.bytes [97, 0, 98])).2, ∀ p,
       c.pathArg = some p → p = ([97, 0, 98] : List Nat).takeWhile (fun b => b ≠ 0)) ∧
    (∀ m, (py_setup_datadir envAllFalse (.bytes [97, 0, 98])).1 = .runtimeError m →
       m = msgHead ++ ([97, 0, 98] : List Nat).takeWhile (fun b => b ≠ 0) ++ msgTail) ∧
    (∃ t, ([97, 0, 98] : List Nat) =
       ([97, 0, 98] : List Nat).takeWhile (fun b => b ≠ 0) ++ 0 :: t) :=
  C10_nul_truncation envAllFalse [97, 0, 98] (by decide)

end PyPostal
